import Mathlib

/-
Shallow embedding of the agentic-rag-chatbot core
(src/ingestion.py, src/retrieval.py, src/rag_chain.py, src/memory.py).

Modelling conventions:
* Python strings holding document text are modelled as `List Char`
  (a Python `str` is a sequence of code points); short identifier-like
  strings (filenames, locators, log lines) are modelled as `String`.
* Third-party library calls (the FAISS index, the embedding service, the
  LLM, `RecursiveCharacterTextSplitter`, `json.loads`) are opaque
  collaborators of this repository; they enter the model as explicit
  function parameters or as an already-decoded value, never as stubs of
  repository code.
* Document metadata in this pipeline only ever holds string values
  (ingestion.py writes `source`, `chunk_id`, `locator` as strings), so a
  metadata field is an `Option String`; `None`/absent key is `none`.
-/

/-- Python `str.strip()` on a list of code points: drop whitespace from
both ends. -/
def pyStrip (l : List Char) : List Char :=
  ((l.dropWhile Char.isWhitespace).reverse.dropWhile Char.isWhitespace).reverse

/-- Python `str.strip()` on a short `String`. -/
def pyStripStr (s : String) : String :=
  String.mk (pyStrip s.toList)

/-- Python `s.startswith(pre)`: a prefix test on code points. -/
def pyStartsWith (s pre : String) : Bool :=
  pre.toList.isPrefixOf s.toList

/-- The `*.txt` glob filter: a suffix test on code points. -/
def pyEndsWith (s sfx : String) : Bool :=
  sfx.toList.isSuffixOf s.toList

/-- Decimal digits of a natural number, least significant first
(empty for 0). -/
def toDigitsRev : Nat → List Char
  | 0 => []
  | n + 1 => Nat.digitChar ((n + 1) % 10) :: toDigitsRev ((n + 1) / 10)
decreasing_by exact Nat.div_lt_self (Nat.succ_pos n) (by norm_num)

/-- Python `str(n)` for a non-negative integer: decimal rendering. -/
def natToDecimal (n : Nat) : String :=
  if n = 0 then "0" else String.mk (toDigitsRev n).reverse

/-- A langchain chunk or document: the metadata keys this pipeline uses,
plus the page content. -/
structure Doc where
  source : Option String
  locator : Option String
  chunk_id : Option String
  page_content : List Char
deriving Repr, DecidableEq

/-- Citation record produced by `doc_to_citation` in retrieval.py. -/
structure Citation where
  source : String
  locator : String
  snippet : List Char
deriving Repr, DecidableEq

/-- retrieval.py line 15: the Python expression
`doc.metadata.get("locator") or doc.metadata.get("chunk_id", "unknown")`.
`or` falls through on a falsy (absent or empty) locator; the second `get`
defaults only when the `chunk_id` key is absent. -/
def locatorOrChunkId (d : Doc) : String :=
  match d.locator with
  | some l => if l ≠ "" then l else d.chunk_id.getD "unknown"
  | none => d.chunk_id.getD "unknown"

/-- retrieval.py `doc_to_citation` (lines 12-25). The
`isinstance(locator, str)` guard is identically true here because every
metadata value this pipeline writes is a string. -/
def doc_to_citation (d : Doc) : Citation :=
  let source := d.source.getD "unknown"
  let loc0 := locatorOrChunkId d
  let locator := if pyStartsWith loc0 "chunk" then loc0 else "chunk " ++ loc0
  let snip0 := pyStrip (d.page_content.take 500)
  let snippet := if 500 < d.page_content.length then snip0 ++ ['.', '.', '.'] else snip0
  { source := source, locator := locator, snippet := snippet }

/-- retrieval.py line 34: the locator used in the numbered context block,
whose missing-chunk_id default is `str(i + 1)` instead of `"unknown"`. -/
def contextLocator (i : Nat) (d : Doc) : String :=
  match d.locator with
  | some l => if l ≠ "" then l else d.chunk_id.getD (natToDecimal (i + 1))
  | none => d.chunk_id.getD (natToDecimal (i + 1))

/-- retrieval.py line 35: one numbered context block. -/
def contextBlock (i : Nat) (d : Doc) : String :=
  "[" ++ natToDecimal (i + 1) ++ "] (Source: " ++ d.source.getD "unknown" ++ ", "
    ++ contextLocator i d ++ ")\n" ++ String.mk d.page_content

/-- retrieval.py `format_context_with_citations` (lines 28-37): the
enumeration loop appends one context block and one citation per retrieved
document, in order. -/
def format_context_with_citations (docs : List Doc) : String × List Citation :=
  (String.intercalate "\n\n---\n\n" (docs.enum.map fun p => contextBlock p.1 p.2),
   docs.map doc_to_citation)

/-- The fixed refusal string of rag_chain.py (lines 53-56). -/
def REFUSAL_TEXT : String := "I cannot find this in the uploaded documents."

/-- rag_chain.py `query_rag` (lines 44-70). The retriever and the LLM are
external services, passed in as functions (`retrieve` stands for
`get_retriever(k).invoke`, `gen` for the prompt-plus-LLM chain on the
formatted context and the question). The extra `Nat` in the result counts
generation calls, so that the short-circuit path is observable. -/
def query_rag (retrieve : String → List Doc) (gen : String → String → String)
    (question : String) : (String × List Citation) × Nat :=
  let docs := retrieve question
  if docs.isEmpty then ((REFUSAL_TEXT, []), 0)
  else
    let fc := format_context_with_citations docs
    ((pyStripStr (gen fc.1 question), fc.2), 1)

/-- ingestion.py `load_txt_documents` (lines 28-39): an empty result when
the directory does not exist, otherwise one document per `*.txt` file with
`source` set to the file name. The directory is modelled as its listing. -/
def load_txt_documents (dirExists : Bool) (files : List (String × List Char)) : List Doc :=
  if dirExists then
    (files.filter fun f => pyEndsWith f.1 ".txt").map fun f =>
      { source := some f.1, locator := none, chunk_id := none, page_content := f.2 }
  else []

/-- ingestion.py lines 50-54: the body of the metadata-assignment loop of
`chunk_documents` for the chunk at 0-based position i: `chunk_id` is
`str(i + 1)` and `locator` is set to `"chunk " + str(i + 1)` only when the
key is absent. -/
def assignStep (i : Nat) (c : Doc) : Doc :=
  let c1 := { c with chunk_id := some (natToDecimal (i + 1)) }
  match c1.locator with
  | none => { c1 with locator := some ("chunk " ++ natToDecimal (i + 1)) }
  | some _ => c1

/-- ingestion.py lines 50-54: the metadata-assignment loop of
`chunk_documents` over the already-split chunk list. -/
def assignChunkMetadata (chunks : List Doc) : List Doc :=
  chunks.enum.map fun p => assignStep p.1 p.2

/-- ingestion.py `chunk_documents` (lines 42-54): the
`RecursiveCharacterTextSplitter` is a library collaborator, passed in as
`split`; the repository's own contribution is the metadata loop. -/
def chunk_documents (split : List Doc → List Doc) (documents : List Doc) : List Doc :=
  assignChunkMetadata (split documents)

/-- An in-memory FAISS store, abstracted to the chunks it indexes. -/
structure FAISSStore where
  docs : List Doc
deriving Repr, DecidableEq

/-- Errors surfaced by the build path of ingestion.py: the
`ValueError("No .txt files found ...")` of `get_or_create_vector_store`
and a failure of the embedding service inside `FAISS.from_documents`. -/
inductive BuildError where
  | emptyCorpus
  | embedFailed (msg : String)
deriving Repr, DecidableEq

/-- ingestion.py `create_vector_store` (lines 57-63): embed and build, then
persist. `embed` stands for `FAISS.from_documents` with the embedding
service and may fail; `persisted` is the on-disk index directory state,
updated by `save_local` only on success. -/
def create_vector_store (embed : List Doc → Except String FAISSStore)
    (chunks : List Doc) (persisted : Option FAISSStore) :
    Option FAISSStore × Except BuildError FAISSStore :=
  match embed chunks with
  | .error e => (persisted, .error (.embedFailed e))
  | .ok st => (some st, .ok st)

/-- ingestion.py `get_or_create_vector_store` (lines 66-77): load, check
non-empty, chunk, delete the persisted index when `force_recreate` is set
and it exists (`shutil.rmtree` before any embedding), then build. Returns
the final on-disk state together with the outcome. -/
def get_or_create_vector_store (split : List Doc → List Doc)
    (embed : List Doc → Except String FAISSStore) (dirExists : Bool)
    (files : List (String × List Char)) (force_recreate : Bool)
    (persisted : Option FAISSStore) :
    Option FAISSStore × Except BuildError FAISSStore :=
  let documents := load_txt_documents dirExists files
  if documents.isEmpty then (persisted, .error .emptyCorpus)
  else
    let chunks := chunk_documents split documents
    let persisted1 := if force_recreate && persisted.isSome then none else persisted
    create_vector_store embed chunks persisted1

/-
Model of memory.py. The classifier response is a JSON-like Python value;
`json.loads` is library code, so the response text enters the model
already dispatched on the two observations the code makes of it: its
first character after `strip()` and whether `json.loads` succeeds.
-/

/-- A decoded Python/JSON value as produced by `json.loads` (floats are
modelled as rationals). -/
inductive PyVal where
  | null
  | pybool (b : Bool)
  | num (q : ℚ)
  | str (s : String)
  | arr (xs : List PyVal)
  | obj (fields : List (String × PyVal))

/-- Python truthiness of a decoded JSON value. -/
def truthy : PyVal → Bool
  | .null => false
  | .pybool b => b
  | .num q => decide (q ≠ 0)
  | .str s => decide (s ≠ "")
  | .arr xs => !xs.isEmpty
  | .obj kvs => !kvs.isEmpty

/-- Python `dict.get(k)` on a decoded JSON object. -/
def pyGet (kvs : List (String × PyVal)) (k : String) : Option PyVal :=
  (kvs.find? fun p => p.1 == k).map fun p => p.2

/-- The Python exception that escapes `_parse_memory_response` when a
comparison is attempted on incomparable types. -/
inductive PyError where
  | typeError
deriving Repr, DecidableEq

/-- Python `v >= q` against a float threshold: defined for numbers and
booleans (`bool` is an `int` in Python), a `TypeError` otherwise; only
`json.JSONDecodeError` is caught in memory.py, so this error escapes. -/
def pyGeQ (v : PyVal) (q : ℚ) : Except PyError Bool :=
  match v with
  | .num x => .ok (decide (q ≤ x))
  | .pybool b => .ok (decide (q ≤ (if b then (1 : ℚ) else 0)))
  | _ => .error .typeError

/-- An entry kept by `_parse_memory_response`: the raw `target` and
`summary` values of the item. -/
structure MemItem where
  target : PyVal
  summary : PyVal

/-- The confidence threshold 0.7 of memory.py. -/
def CONFIDENCE_THRESHOLD : ℚ := 7 / 10

/-- memory.py lines 53-56 and 61-63: one item's filter —
`item.get("should_write") and item.get("target") and item.get("summary")`
followed, only when that gate passes, by
`item.get("confidence", 0) >= 0.7`. -/
def filterItem (kvs : List (String × PyVal)) : Except PyError (Option MemItem) :=
  let sw := (pyGet kvs "should_write").getD .null
  let tg := (pyGet kvs "target").getD .null
  let sm := (pyGet kvs "summary").getD .null
  if truthy sw && truthy tg && truthy sm then
    match pyGeQ ((pyGet kvs "confidence").getD (.num 0)) CONFIDENCE_THRESHOLD with
    | .error e => .error e
    | .ok true => .ok (some { target := tg, summary := sm })
    | .ok false => .ok none
  else .ok none

/-- A classifier response text, dispatched the way memory.py observes it:
a stripped text starting with a brace that decodes to an object, one
starting with a bracket that decodes to an array, a text starting with
either of those whose decoding fails (`json.JSONDecodeError`), or any
other text. -/
inductive RespText where
  | objText (kvs : List (String × PyVal))
  | arrText (xs : List PyVal)
  | badJson
  | plainText (s : String)

/-- memory.py lines 58-63: the array loop; non-dict items are skipped by
the `isinstance(item, dict)` guard, and a raised comparison error aborts
the whole call. -/
def parseArrayItems : List PyVal → Except PyError (List MemItem)
  | [] => .ok []
  | .obj kvs :: rest => do
    let o ← filterItem kvs
    let r ← parseArrayItems rest
    pure (o.toList ++ r)
  | _ :: rest => parseArrayItems rest

/-- memory.py `_parse_memory_response` (lines 44-66). -/
def _parse_memory_response : RespText → Except PyError (List MemItem)
  | .objText kvs => do
    let o ← filterItem kvs
    pure o.toList
  | .arrText xs => parseArrayItems xs
  | .badJson => .ok []
  | .plainText _ => .ok []

/-- Python `str(v)` as used in the f-string of memory.py line 96. Every
claim only exercises the string case; the container renderings of Python
are abbreviated here since no claim observes them. -/
def pyFormat : PyVal → String
  | .str s => s
  | .pybool true => "True"
  | .pybool false => "False"
  | .null => "None"
  | .num q => toString q
  | .arr _ => "<list>"
  | .obj _ => "<dict>"

/-- The two append-only memory logs, as lists of appended lines. -/
structure MemLogs where
  userLog : List String
  companyLog : List String
deriving Repr, DecidableEq

/-- memory.py line 96: one appended memory line
`"- [" + date + "] " + summary + "\n"`. -/
def memoryLine (date : String) (summary : PyVal) : String :=
  "- [" ++ date ++ "] " ++ pyFormat summary ++ "\n"

/-- memory.py line 95: `path = user_mem_path if target == "USER" else
company_mem_path` — Python equality of the target value with the string
`"USER"`. -/
def isUserTarget : PyVal → Bool
  | .str s => s == "USER"
  | _ => false

/-- memory.py lines 91-99: the write loop — append one line per item to
the log selected by its target, and collect the written items in order. -/
def writeItems (date : String) (logs : MemLogs) : List MemItem → MemLogs × List MemItem
  | [] => (logs, [])
  | it :: rest =>
    let logs1 :=
      if isUserTarget it.target then
        { logs with userLog := logs.userLog ++ [memoryLine date it.summary] }
      else
        { logs with companyLog := logs.companyLog ++ [memoryLine date it.summary] }
    let r := writeItems date logs1 rest
    (r.1, it :: r.2)

/-- memory.py `extract_and_write_memory` (lines 69-101): the LLM call is a
collaborator, so the function is modelled from the parsed response on;
`date` stands for `datetime.now().strftime` of the ISO date. Returns the
final logs and the written entries, or the escaped Python error. -/
def extract_and_write_memory (resp : RespText) (date : String) (logs : MemLogs) :
    Except PyError (MemLogs × List MemItem) :=
  match _parse_memory_response resp with
  | .error e => .error e
  | .ok items => .ok (writeItems date logs items)

/-- The item survivor function implemented by the filter of
`_parse_memory_response`: the kept entry of one array element, if any. -/
def survivorOf (v : PyVal) : Option MemItem :=
  match v with
  | .obj kvs =>
    match filterItem kvs with
    | .ok o => o
    | .error _ => none
  | _ => none

/-
Concrete values used to evaluate the theorems on explicit inputs.
-/

/-- A retrieved chunk with full metadata. -/
def exDoc : Doc :=
  { source := some "report.txt", locator := some "chunk 3", chunk_id := some "3",
    page_content := ['R', 'e', 'v', 'e', 'n', 'u', 'e', ' ', 'g', 'r', 'e', 'w'] }

/-- A split chunk without a locator, first of a pair. -/
def wDocA : Doc :=
  { source := some "a.txt", locator := none, chunk_id := none,
    page_content := ['f', 'i', 'r', 's', 't'] }

/-- A split chunk without a locator, second of a pair. -/
def wDocB : Doc :=
  { source := some "a.txt", locator := none, chunk_id := none,
    page_content := ['s', 'e', 'c', 'o', 'n', 'd'] }

/-- A retrieved chunk with no metadata at all. -/
def noMetaDoc : Doc :=
  { source := none, locator := none, chunk_id := none,
    page_content := ['h', 'i'] }

/-- A retrieved chunk whose metadata lacks `locator` but has
`chunk_id = "7"`. -/
def chunk7Doc : Doc :=
  { source := some "report.txt", locator := none, chunk_id := some "7",
    page_content := ['h', 'i'] }

/-- A 600-character chunk text whose 500th character is a space. -/
def longContent : List Char :=
  List.replicate 499 'a' ++ ' ' :: List.replicate 100 'b'

/-- A retrieved chunk of 600 characters. -/
def longDoc : Doc :=
  { source := some "a.txt", locator := none, chunk_id := none,
    page_content := longContent }

/-- A retrieved chunk of fewer than 500 characters. -/
def shortDoc : Doc :=
  { source := some "a.txt", locator := none, chunk_id := none,
    page_content := ['h', 'i', ' '] }

/-- A decoded classifier item that passes the truthiness gate but whose
confidence is a string, so the threshold comparison raises. -/
def typeErrKvs : List (String × PyVal) :=
  [("should_write", .pybool true), ("target", .str "USER"),
   ("summary", .str "User is a Project Finance Analyst"),
   ("confidence", .str "high")]

/-- A decoded classifier item whose `target` key is present but holds the
empty string. -/
def presentButEmptyTargetKvs : List (String × PyVal) :=
  [("should_write", .pybool true), ("target", .str ""),
   ("summary", .str "Prefers weekly summaries"),
   ("confidence", .num (9 / 10))]

/-- A decoded classifier item that passes every part of the gate. -/
def goodKvs : List (String × PyVal) :=
  [("should_write", .pybool true), ("target", .str "USER"),
   ("summary", .str "User is a Project Finance Analyst"),
   ("confidence", .num (4 / 5))]

/-- Two empty memory logs. -/
def emptyLogs : MemLogs := { userLog := [], companyLog := [] }

/-
Helper lemmas.
-/

/-- Stripping never lengthens a text. -/
theorem pyStrip_length_le (l : List Char) : (pyStrip l).length ≤ l.length := by
  unfold pyStrip
  simp only [List.length_reverse]
  exact le_trans (List.dropWhile_sublist _).length_le
    (by simpa using (List.dropWhile_sublist (l := l) (p := Char.isWhitespace)).length_le)

/-- A string extended on the right still starts with itself. -/
theorem pyStartsWith_append_self (pre rest : String) :
    pyStartsWith (pre ++ rest) pre = true := by
  unfold pyStartsWith
  rw [ List.isPrefixOf_iff_prefix]
  show pre.data <+: (pre ++ rest).data
  rw [String.data_append]
  exact List.prefix_append _ _

/-- The write loop returns exactly the items it was given. -/
theorem writeItems_written (date : String) (logs : MemLogs) (items : List MemItem) :
    (writeItems date logs items).2 = items := by
  induction items generalizing logs with
  | nil => rfl
  | cons it rest ih => simp [writeItems, ih]

/-- The write loop appends exactly one line per item across the two logs. -/
theorem writeItems_total (date : String) (logs : MemLogs) (items : List MemItem) :
    (writeItems date logs items).1.userLog.length + (writeItems date logs items).1.companyLog.length
      = logs.userLog.length + logs.companyLog.length + items.length := by
  induction items generalizing logs with
  | nil => simp [writeItems]
  | cons it rest ih =>
    cases h : isUserTarget it.target <;>
      simp [writeItems, h, ih, List.length_append] <;> omega

/-- An `ok` outcome of the array loop is exactly the surviving items, in
order. -/
theorem parseArrayItems_ok_eq (xs : List PyVal) (items : List MemItem)
    (h : parseArrayItems xs = .ok items) : items = xs.filterMap survivorOf := by
  induction xs generalizing items with
  | nil =>
    simp only [parseArrayItems] at h
    cases h
    rfl
  | cons x rest ih =>
    cases x with
    | obj kvs =>
      cases hf : filterItem kvs with
      | error e => simp [parseArrayItems, hf, bind, Except.bind] at h
      | ok o =>
        cases hr : parseArrayItems rest with
        | error e => simp [parseArrayItems, hf, hr, bind, Except.bind] at h
        | ok items2 =>
          simp only [parseArrayItems, hf, hr, bind, Except.bind, pure, Except.pure] at h
          cases h
          simp [List.filterMap_cons, survivorOf, hf, ih items2 hr]
          cases o <;> simp
    | null => simpa [parseArrayItems, List.filterMap_cons, survivorOf] using ih items h
    | pybool b => simpa [parseArrayItems, List.filterMap_cons, survivorOf] using ih items h
    | num q => simpa [parseArrayItems, List.filterMap_cons, survivorOf] using ih items h
    | str s => simpa [parseArrayItems, List.filterMap_cons, survivorOf] using ih items h
    | arr ys => simpa [parseArrayItems, List.filterMap_cons, survivorOf] using ih items h

/-
C1.
-/

/-- C1: for every question, if the retrieval step returns an empty
sequence of chunks, then `query_rag` returns exactly the fixed refusal
string paired with an empty citation list, and the generation-call count
is zero. -/
theorem query_rag_empty_retrieval_refuses (retrieve : String → List Doc)
    (gen : String → String → String) (question : String)
    (h : retrieve question = []) :
    query_rag retrieve gen question = ((REFUSAL_TEXT, []), 0) := by
  simp [query_rag, h]

/-- Witness for C1 at a concrete retriever, generator and question. -/
theorem query_rag_empty_retrieval_refuses_witness :
    (fun (_ : String) => ([] : List Doc)) "Where is the report?" = [] ∧
    query_rag (fun _ => []) (fun _ _ => "some generated text") "Where is the report?"
      = ((REFUSAL_TEXT, []), 0) :=
  ⟨rfl, query_rag_empty_retrieval_refuses _ _ _ rfl⟩

/-
C2.
-/

/-- C2: the Formatter produces exactly one citation per retrieved chunk,
as the image of the retrieved list under `doc_to_citation` in the same
order as the 1-based numbering of the context blocks, so the citation
count equals the number of retrieved chunks (hence is at most k), and
every citation is backed by a retrieved chunk. -/
theorem citations_match_retrieved_chunks (docs : List Doc) (k : Nat)
    (hk : docs.length ≤ k) :
    (format_context_with_citations docs).2 = docs.map doc_to_citation ∧
    (format_context_with_citations docs).2.length = docs.length ∧
    (format_context_with_citations docs).2.length ≤ k ∧
    ∀ c ∈ (format_context_with_citations docs).2, ∃ d ∈ docs, c = doc_to_citation d := by
  refine ⟨rfl, by simp [format_context_with_citations],
    by simpa [format_context_with_citations] using hk, ?_⟩
  intro c hc
  simp only [format_context_with_citations, List.mem_map] at hc
  obtain ⟨d, hd, hdc⟩ := hc
  exact ⟨d, hd, hdc.symm⟩

/-- Witness for C2 at a concrete one-chunk retrieval with k = 1. -/
theorem citations_match_retrieved_chunks_witness :
    [exDoc].length ≤ 1 ∧
    ((format_context_with_citations [exDoc]).2 = [exDoc].map doc_to_citation ∧
     (format_context_with_citations [exDoc]).2.length = [exDoc].length ∧
     (format_context_with_citations [exDoc]).2.length ≤ 1 ∧
     ∀ c ∈ (format_context_with_citations [exDoc]).2, ∃ d ∈ [exDoc], c = doc_to_citation d) :=
  ⟨by decide, citations_match_retrieved_chunks [exDoc] 1 (by decide)⟩

/-
C8.
-/

/-- C8: a build over an empty document set (no `.txt` file found, or a
missing source directory) fails with the empty-corpus error and leaves the
persisted index untouched, rather than producing an empty index. -/
theorem empty_corpus_build_fails (split : List Doc → List Doc)
    (embed : List Doc → Except String FAISSStore) (dirExists : Bool)
    (files : List (String × List Char)) (force_recreate : Bool)
    (persisted : Option FAISSStore)
    (h : load_txt_documents dirExists files = []) :
    get_or_create_vector_store split embed dirExists files force_recreate persisted
      = (persisted, .error .emptyCorpus) := by
  simp [get_or_create_vector_store, h]

/-- Witness for C8 at a directory holding only a non-txt file. -/
theorem empty_corpus_build_fails_witness :
    load_txt_documents true [("notes.md", ['h', 'i'])] = [] ∧
    get_or_create_vector_store id (fun ds => .ok { docs := ds }) true
        [("notes.md", ['h', 'i'])] false none
      = (none, .error .emptyCorpus) :=
  ⟨by decide, empty_corpus_build_fails _ _ _ _ _ _ (by decide)⟩

/-
C10.
-/

/-- C10: with `force_recreate` set and a persisted index present, the old
index is deleted before any embedding is computed, so when the embedding
step fails, the outcome is the embedding error with no index persisted at
all: no partial new index, and the old index gone. -/
theorem force_recreate_not_atomic (split : List Doc → List Doc)
    (embed : List Doc → Except String FAISSStore)
    (files : List (String × List Char)) (old : FAISSStore) (msg : String)
    (hdocs : load_txt_documents true files ≠ [])
    (hembed : embed (chunk_documents split (load_txt_documents true files)) = .error msg) :
    get_or_create_vector_store split embed true files true (some old)
      = (none, .error (.embedFailed msg)) := by
  rw [get_or_create_vector_store]
  rw [if_neg (by simpa [List.isEmpty_iff] using hdocs)]
  simp [create_vector_store, hembed]

/-- Witness for C10: one `.txt` file, a failing embedding service, and a
previously persisted index that ends up deleted. -/
theorem force_recreate_not_atomic_witness :
    load_txt_documents true [("a.txt", ['x'])] ≠ [] ∧
    get_or_create_vector_store id (fun _ => .error "embedding service down") true
        [("a.txt", ['x'])] true (some { docs := [] })
      = (none, .error (.embedFailed "embedding service down")) :=
  ⟨by decide, force_recreate_not_atomic id _ _ { docs := [] } _ (by decide) rfl⟩

/-
C9.
-/

/-- C9: in the write loop, routing is decided solely by equality of the
target value with the exact string "USER": the line of an item with any
other target value is appended to the company log, and only target
exactly "USER" goes to the user log. -/
theorem memory_target_routing (date : String) (logs : MemLogs) (it : MemItem) :
    (isUserTarget it.target = true ↔ it.target = .str "USER") ∧
    writeItems date logs [it] =
      (if isUserTarget it.target then
         { logs with userLog := logs.userLog ++ [memoryLine date it.summary] }
       else
         { logs with companyLog := logs.companyLog ++ [memoryLine date it.summary] },
       [it]) := by
  constructor
  · cases h : it.target <;> simp [isUserTarget]
  · cases h : isUserTarget it.target <;> simp [writeItems, h]

/-
C7.
-/

/-- Decimal digit characters determine the digit. -/
theorem digitChar_inj_lt : ∀ x < 10, ∀ y < 10, Nat.digitChar x = Nat.digitChar y → x = y := by
  decide

/-- The digit-list rendering is injective. -/
theorem toDigitsRev_inj (a : Nat) : ∀ b, toDigitsRev a = toDigitsRev b → a = b := by
  induction a using Nat.strong_induction_on with
  | _ a ih =>
    intro b h
    match a, b with
    | 0, 0 => rfl
    | 0, m + 1 => simp [toDigitsRev] at h
    | n + 1, 0 => simp [toDigitsRev] at h
    | n + 1, m + 1 =>
      rw [toDigitsRev, toDigitsRev] at h
      have h1 : Nat.digitChar ((n + 1) % 10) = Nat.digitChar ((m + 1) % 10) :=
        (List.cons.injEq _ _ _ _ ▸ h).1
      have h2 : toDigitsRev ((n + 1) / 10) = toDigitsRev ((m + 1) / 10) :=
        (List.cons.injEq _ _ _ _ ▸ h).2
      have hm : (n + 1) % 10 = (m + 1) % 10 :=
        digitChar_inj_lt _ (Nat.mod_lt _ (by norm_num)) _ (Nat.mod_lt _ (by norm_num)) h1
      have hd : (n + 1) / 10 = (m + 1) / 10 :=
        ih ((n + 1) / 10) (Nat.div_lt_self (Nat.succ_pos n) (by norm_num)) _ h2
      omega

/-- Decimal rendering is injective on positive numbers. -/
theorem natToDecimal_inj (a b : Nat) (ha : 0 < a) (hb : 0 < b)
    (h : natToDecimal a = natToDecimal b) : a = b := by
  unfold natToDecimal at h
  rw [if_neg (Nat.pos_iff_ne_zero.mp ha), if_neg (Nat.pos_iff_ne_zero.mp hb)] at h
  have hl : (toDigitsRev a).reverse = (toDigitsRev b).reverse := congrArg String.data h
  exact toDigitsRev_inj a b (List.reverse_injective hl)

/-- The update step keeps none of the old chunk_id: it always writes the
decimal position. -/
theorem assignStep_chunk_id (i : Nat) (c : Doc) :
    (assignStep i c).chunk_id = some (natToDecimal (i + 1)) := by
  cases h : c.locator <;> simp [assignStep, h]

/-- The update step writes the default locator exactly when none was
present. -/
theorem assignStep_locator_of_none (i : Nat) (c : Doc) (h : c.locator = none) :
    (assignStep i c).locator = some ("chunk " ++ natToDecimal (i + 1)) := by
  simp [assignStep, h]

/-- The i-th chunk of `chunk_documents` is the i-th split chunk with its
metadata assigned by `assignStep`. -/
theorem chunk_documents_get (split : List Doc → List Doc) (documents : List Doc)
    (i : Nat) (hi : i < (chunk_documents split documents).length)
    (hi2 : i < (split documents).length) :
    (chunk_documents split documents).get ⟨i, hi⟩ =
      assignStep i ((split documents).get ⟨i, hi2⟩) := by
  simp only [chunk_documents, assignChunkMetadata, List.get_eq_getElem, List.getElem_map,
    List.getElem_enum]

/-- C7: for every split output, the chunk at 0-based position i of
`chunk_documents` carries `chunk_id` equal to the decimal rendering of the
positive integer i+1, distinct positions carry distinct chunk_ids within
the run, and a chunk with no pre-existing locator gets the locator
"chunk " followed by that chunk_id. -/
theorem chunk_id_assignment (split : List Doc → List Doc) (documents : List Doc)
    (i j : Nat) (hi : i < (chunk_documents split documents).length)
    (hi2 : i < (split documents).length)
    (hj : j < (chunk_documents split documents).length) (hij : i ≠ j) :
    ((chunk_documents split documents).get ⟨i, hi⟩).chunk_id = some (natToDecimal (i + 1)) ∧
    0 < i + 1 ∧
    (((split documents).get ⟨i, hi2⟩).locator = none →
      ((chunk_documents split documents).get ⟨i, hi⟩).locator
        = some ("chunk " ++ natToDecimal (i + 1))) ∧
    ((chunk_documents split documents).get ⟨i, hi⟩).chunk_id
      ≠ ((chunk_documents split documents).get ⟨j, hj⟩).chunk_id := by
  have hj2 : j < (split documents).length := by
    have hlen : (chunk_documents split documents).length = (split documents).length := by
      simp [chunk_documents, assignChunkMetadata]
    omega
  have hcid : ∀ t (ht : t < (chunk_documents split documents).length)
      (ht2 : t < (split documents).length),
      ((chunk_documents split documents).get ⟨t, ht⟩).chunk_id = some (natToDecimal (t + 1)) := by
    intro t ht ht2
    rw [chunk_documents_get split documents t ht ht2]
    exact assignStep_chunk_id t _
  refine ⟨hcid i hi hi2, Nat.succ_pos i, ?_, ?_⟩
  · intro hnone
    rw [chunk_documents_get split documents i hi hi2]
    exact assignStep_locator_of_none i _ hnone
  · rw [hcid i hi hi2, hcid j hj hj2]
    intro hcontra
    have : natToDecimal (i + 1) = natToDecimal (j + 1) := by
      simpa using hcontra
    have := natToDecimal_inj (i + 1) (j + 1) (Nat.succ_pos i) (Nat.succ_pos j) this
    omega

/-- Witness for C7 on a two-chunk run with the identity splitter. -/
theorem chunk_id_assignment_witness :
    ((chunk_documents id [wDocA, wDocB]).get ⟨0, by decide⟩).chunk_id
        = some (natToDecimal (0 + 1)) ∧
    0 < 0 + 1 ∧
    (((id [wDocA, wDocB] : List Doc).get ⟨0, by decide⟩).locator = none →
      ((chunk_documents id [wDocA, wDocB]).get ⟨0, by decide⟩).locator
        = some ("chunk " ++ natToDecimal (0 + 1))) ∧
    ((chunk_documents id [wDocA, wDocB]).get ⟨0, by decide⟩).chunk_id
      ≠ ((chunk_documents id [wDocA, wDocB]).get ⟨1, by decide⟩).chunk_id :=
  chunk_id_assignment id [wDocA, wDocB] 0 1 (by decide) (by decide) (by decide) (by decide)

/-
C5.
-/

/-- C5 counterexample: with both locator and chunk_id absent, the citation
locator is not the literal string "unknown" — the fallback "unknown" is
itself prefixed, yielding "chunk unknown". -/
theorem locator_fallback_counterexample :
    (doc_to_citation noMetaDoc).locator = "chunk unknown" ∧
    (doc_to_citation noMetaDoc).locator ≠ "unknown" := by
  refine ⟨by decide, by decide⟩

/-- C5 (amended): every citation locator begins with the literal word
"chunk"; a missing stored locator falls back to the chunk_id (chunk_id
"7" yields locator "chunk 7"); and if the chunk_id is also absent, the
"unknown" fallback is likewise prefixed, yielding "chunk unknown". -/
theorem locator_normalization_amended (d : Doc) :
    pyStartsWith (doc_to_citation d).locator "chunk" = true ∧
    (d.locator = none → d.chunk_id = some "7" → (doc_to_citation d).locator = "chunk 7") ∧
    (d.locator = none → d.chunk_id = none → (doc_to_citation d).locator = "chunk unknown") := by
  refine ⟨?_, ?_, ?_⟩
  · cases h : pyStartsWith (locatorOrChunkId d) "chunk" with
    | true => simp [doc_to_citation, h]
    | false =>
      have happ : "chunk " ++ locatorOrChunkId d = "chunk" ++ (" " ++ locatorOrChunkId d) := rfl
      simp only [doc_to_citation, h, Bool.false_eq_true, if_false, happ]
      exact pyStartsWith_append_self "chunk" _
  · intro h1 h2
    simp only [doc_to_citation, locatorOrChunkId, h1, h2]
    decide
  · intro h1 h2
    simp only [doc_to_citation, locatorOrChunkId, h1, h2]
    decide

/-- Witness for C5 at a chunk with chunk_id "7" and at a chunk with no
metadata. -/
theorem locator_normalization_amended_witness :
    (doc_to_citation chunk7Doc).locator = "chunk 7" ∧
    (doc_to_citation noMetaDoc).locator = "chunk unknown" :=
  ⟨(locator_normalization_amended chunk7Doc).2.1 rfl rfl,
   (locator_normalization_amended noMetaDoc).2.2 rfl rfl⟩

/-
C6.
-/

set_option maxRecDepth 40000 in
/-- C6 counterexample: a 600-character chunk whose 500th character is a
space yields a snippet of 502 characters, not 503 — the code strips the
500-character slice before appending the ellipsis. -/
theorem snippet_length_counterexample :
    longDoc.page_content.length = 600 ∧
    (doc_to_citation longDoc).snippet.length = 502 ∧ (502 : Nat) ≠ 503 := by
  refine ⟨by decide, by decide, by decide⟩

/-- C6 (amended): a chunk longer than 500 characters yields a snippet that
is the first 500 characters with surrounding whitespace stripped, followed
by the 3-character ellipsis marker — hence at most 503 characters, with
exactly 503 only when the slice keeps no strippable whitespace; a chunk of
at most 500 characters gets no marker and only the whitespace strip. -/
theorem snippet_truncation_amended (d : Doc) :
    (500 < d.page_content.length →
      (doc_to_citation d).snippet = pyStrip (d.page_content.take 500) ++ ['.', '.', '.'] ∧
      (doc_to_citation d).snippet.length ≤ 503) ∧
    (d.page_content.length ≤ 500 →
      (doc_to_citation d).snippet = pyStrip d.page_content) := by
  constructor
  · intro h
    have heq : (doc_to_citation d).snippet = pyStrip (d.page_content.take 500) ++ ['.', '.', '.'] := by
      simp [doc_to_citation, h]
    refine ⟨heq, ?_⟩
    rw [heq]
    have h1 : (pyStrip (d.page_content.take 500)).length ≤ 500 :=
      le_trans (pyStrip_length_le _) (List.length_take_le 500 _)
    simp only [List.length_append, List.length_cons, List.length_nil]
    omega
  · intro h
    have hnot : ¬ 500 < d.page_content.length := by omega
    simp [doc_to_citation, hnot, List.take_of_length_le h]

set_option maxRecDepth 40000 in
/-- Witness for C6 at the 600-character chunk and a short chunk. -/
theorem snippet_truncation_amended_witness :
    ((doc_to_citation longDoc).snippet = pyStrip (longDoc.page_content.take 500) ++ ['.', '.', '.'] ∧
     (doc_to_citation longDoc).snippet.length ≤ 503) ∧
    (doc_to_citation shortDoc).snippet = pyStrip shortDoc.page_content :=
  ⟨(snippet_truncation_amended longDoc).1 (by decide),
   (snippet_truncation_amended shortDoc).2 (by decide)⟩

/-
C4.
-/

/-- C4 counterexample: a classifier response that IS valid JSON, passes
the truthiness gate, and carries a non-numeric confidence makes the
threshold comparison raise a type error that escapes
`_parse_memory_response` to the caller, refuting "parsing never raises". -/
theorem parse_memory_nonnumeric_confidence_raises :
    _parse_memory_response (.objText typeErrKvs) = .error .typeError := rfl

/-- C4 (amended): a response that is not valid JSON — a decode failure or
a text starting with neither a brace nor a bracket — is treated as
"nothing to store" and yields an empty list with no error; but a valid
JSON item whose confidence value is non-numeric raises a type error to
the caller. -/
theorem parse_memory_error_swallow_scope :
    (∀ s, _parse_memory_response (.plainText s) = .ok []) ∧
    _parse_memory_response .badJson = .ok [] ∧
    _parse_memory_response (.objText typeErrKvs) = .error .typeError :=
  ⟨fun _ => rfl, rfl, rfl⟩

/-
C3.
-/

/-- C3 counterexample: an item whose `target` key is present but holds the
empty string, with `should_write` true and confidence 0.9, is filtered out
and causes no write — the claim's "target present" condition would demand
exactly one appended line. -/
theorem memory_gate_counterexample :
    pyGet presentButEmptyTargetKvs "should_write" = some (.pybool true) ∧
    pyGet presentButEmptyTargetKvs "target" = some (.str "") ∧
    pyGet presentButEmptyTargetKvs "summary" = some (.str "Prefers weekly summaries") ∧
    pyGet presentButEmptyTargetKvs "confidence" = some (.num (9 / 10)) ∧
    CONFIDENCE_THRESHOLD ≤ 9 / 10 ∧
    extract_and_write_memory (.objText presentButEmptyTargetKvs) "2026-10-12" emptyLogs
      = .ok (emptyLogs, []) :=
  ⟨rfl, rfl, rfl, rfl, by norm_num [CONFIDENCE_THRESHOLD], rfl⟩

/-- C3 (amended): for a single-object response with a numeric confidence
c, a memory line is appended if and only if `should_write`, `target` and
`summary` are all present with truthy values and c ≥ 0.7, in which case
exactly one line for that summary is appended to the log selected by the
target; and for an array response that parses, each surviving item causes
exactly one appended line, and the survivors are exactly the items passing
that gate. -/
theorem memory_gate_amended (kvs : List (String × PyVal)) (date : String)
    (logs : MemLogs) (c : ℚ)
    (hc : (pyGet kvs "confidence").getD (.num 0) = .num c) :
    (extract_and_write_memory (.objText kvs) date logs =
      .ok (if truthy ((pyGet kvs "should_write").getD .null)
              && truthy ((pyGet kvs "target").getD .null)
              && truthy ((pyGet kvs "summary").getD .null)
              && decide (CONFIDENCE_THRESHOLD ≤ c) then
             (if isUserTarget ((pyGet kvs "target").getD .null) then
                { logs with userLog :=
                    logs.userLog ++ [memoryLine date ((pyGet kvs "summary").getD .null)] }
              else
                { logs with companyLog :=
                    logs.companyLog ++ [memoryLine date ((pyGet kvs "summary").getD .null)] },
              [{ target := (pyGet kvs "target").getD .null,
                 summary := (pyGet kvs "summary").getD .null }])
           else (logs, []))) ∧
    (∀ xs items, _parse_memory_response (.arrText xs) = .ok items →
      items = xs.filterMap survivorOf ∧
      (writeItems date logs items).2 = items ∧
      (writeItems date logs items).1.userLog.length
          + (writeItems date logs items).1.companyLog.length
        = logs.userLog.length + logs.companyLog.length + items.length) := by
  constructor
  · simp only [extract_and_write_memory, _parse_memory_response, filterItem, hc, pyGeQ]
    cases hg : (truthy ((pyGet kvs "should_write").getD .null)
        && truthy ((pyGet kvs "target").getD .null)
        && truthy ((pyGet kvs "summary").getD .null)) with
    | false =>
      simp only [hg, Bool.false_and, if_false, Bool.false_eq_true]
      simp [bind, Except.bind, pure, Except.pure, writeItems]
    | true =>
      simp only [hg, Bool.true_and, if_true]
      cases hd : decide (CONFIDENCE_THRESHOLD ≤ c) with
      | false =>
        simp only [hd, if_false, Bool.false_eq_true]
        simp [bind, Except.bind, pure, Except.pure, writeItems]
      | true =>
        simp only [hd, if_true]
        cases hu : isUserTarget ((pyGet kvs "target").getD .null) <;>
          simp [bind, Except.bind, pure, Except.pure, writeItems, hu]
  · intro xs items h
    exact ⟨parseArrayItems_ok_eq xs items h, writeItems_written date logs items,
      writeItems_total date logs items⟩

/-- Witness for C3 at an item that passes the whole gate, written to the
user log. -/
theorem memory_gate_amended_witness :
    ((pyGet goodKvs "confidence").getD (.num 0) = .num (4 / 5)) ∧
    ((extract_and_write_memory (.objText goodKvs) "2026-10-12" emptyLogs =
      .ok (if truthy ((pyGet goodKvs "should_write").getD .null)
              && truthy ((pyGet goodKvs "target").getD .null)
              && truthy ((pyGet goodKvs "summary").getD .null)
              && decide (CONFIDENCE_THRESHOLD ≤ (4 / 5 : ℚ)) then
             (if isUserTarget ((pyGet goodKvs "target").getD .null) then
                { emptyLogs with userLog :=
                    emptyLogs.userLog
                      ++ [memoryLine "2026-10-12" ((pyGet goodKvs "summary").getD .null)] }
              else
                { emptyLogs with companyLog :=
                    emptyLogs.companyLog
                      ++ [memoryLine "2026-10-12" ((pyGet goodKvs "summary").getD .null)] },
              [{ target := (pyGet goodKvs "target").getD .null,
                 summary := (pyGet goodKvs "summary").getD .null }])
           else (emptyLogs, []))) ∧
    (∀ xs items, _parse_memory_response (.arrText xs) = .ok items →
      items = xs.filterMap survivorOf ∧
      (writeItems "2026-10-12" emptyLogs items).2 = items ∧
      (writeItems "2026-10-12" emptyLogs items).1.userLog.length
          + (writeItems "2026-10-12" emptyLogs items).1.companyLog.length
        = emptyLogs.userLog.length + emptyLogs.companyLog.length + items.length)) :=
  ⟨rfl, memory_gate_amended goodKvs "2026-10-12" emptyLogs (4 / 5) rfl⟩
